import Mathlib

/-!
Shallow embedding of the typed action-registry and exhaustive-dispatch reducer
mechanism of the `redux-typescripted-ii` repository.

The runtime parts are embedded from the TypeScript/JavaScript source:
  * `src/utils/action.utils.ts` — the factories `action`, `payloadAction`,
    `optionalPayloadAction`, and the `readonly` helper;
  * `src/utils/reducer.utils.ts` — `createReducer`;
  * `src/store/counter.actions.ts` and `counter.reducer.ts` — the counter
    registry and its reducer.

JavaScript values relevant to this slice are modelled by `JsVal`
(`undefined`, `NaN`, integer numbers, strings), and a message object by a
record tracking, for the `payload` and `meta` properties, whether the
property is present on the object at all (`Option JsVal`, with
`some JsVal.undef` meaning "property present with value `undefined`" —
which is distinct, in JavaScript, from the property being absent).

Completeness checking of a dispatch table and the read-only protection of a
registry are purely static in the source (the mapped type
`ObjectReducer<State, Actions>` and the builtin `Readonly<T>` type).  Those
static semantics of TypeScript are embedded explicitly:
`createReducerChecked` performs, as a construction-time check, exactly the
key-set comparison the TypeScript compiler performs against
`ObjectReducer`, and `readonlyTy`/`assignAllowed`/`deleteAllowed` embed the
compiler's rules for property assignment and deletion on a `Readonly<T>`
object type.
-/

/-- A JavaScript value, restricted to the shapes this program manipulates:
`undefined`, `NaN`, (integer) numbers, and strings.  The program only ever
does integer arithmetic, so numbers are modelled by `Int` with `NaN` as a
separate constructor. -/
inductive JsVal : Type
  | undef : JsVal
  | nan : JsVal
  | num : Int → JsVal
  | str : String → JsVal
deriving DecidableEq, Repr

/-- JavaScript truthiness of a `JsVal`: `undefined`, `NaN`, `0` and `""` are
falsy, everything else here is truthy. -/
def truthy : JsVal → Bool
  | JsVal.undef => false
  | JsVal.nan => false
  | JsVal.num n => n != 0
  | JsVal.str s => s != ""

/-- JavaScript `ToNumber` on the modelled values (result is `num _` or
`nan`).  String conversion covers the integer literals this program can
produce: a whitespace-only string is `0`, an integer literal parses, and
anything else is `NaN`. -/
def toNumber : JsVal → JsVal
  | JsVal.undef => JsVal.nan
  | JsVal.nan => JsVal.nan
  | JsVal.num n => JsVal.num n
  | JsVal.str s =>
      let t := s.trim
      if t = "" then JsVal.num 0
      else
        match t.toInt? with
        | some n => JsVal.num n
        | none => JsVal.nan

/-- JavaScript `ToString` on the modelled values. -/
def jsToString : JsVal → String
  | JsVal.undef => "undefined"
  | JsVal.nan => "NaN"
  | JsVal.num n => toString n
  | JsVal.str s => s

/-- JavaScript `+`: string concatenation if either operand is a string,
numeric addition (propagating `NaN`) otherwise. -/
def jsAdd : JsVal → JsVal → JsVal
  | JsVal.str s, b => JsVal.str (s ++ jsToString b)
  | a, JsVal.str s => JsVal.str (jsToString a ++ s)
  | a, b =>
      match toNumber a, toNumber b with
      | JsVal.num x, JsVal.num y => JsVal.num (x + y)
      | _, _ => JsVal.nan

/-- JavaScript `-`: numeric subtraction, propagating `NaN`. -/
def jsSub (a b : JsVal) : JsVal :=
  match toNumber a, toNumber b with
  | JsVal.num x, JsVal.num y => JsVal.num (x - y)
  | _, _ => JsVal.nan

/-- A tagged message object, as produced by the action factories.  `type` is
the discriminant tag.  `payload`/`meta` model JavaScript object properties:
`none` means the property is absent from the object, `some v` means the
property is present with value `v` (possibly `JsVal.undef`). -/
structure Message : Type where
  type : String
  payload : Option JsVal
  meta : Option JsVal
deriving DecidableEq, Repr

/-- Reading `message.payload` in JavaScript: an absent property reads as
`undefined`. -/
def payloadOf (a : Message) : JsVal := a.payload.getD JsVal.undef

/-- `readonly<T>(object: T): Readonly<T> { return object; }` — the identity
at runtime; the `Readonly<T>` part is static and embedded separately below
(`readonlyTy`). -/
def readonly {α : Type _} (object : α) : α := object

/-- A Message Kind produced by `action(type)`: exposes its tag as `type` and
is callable with one (optional) metadata argument.  An omitted argument is
`undefined` in JavaScript, so the caller passes `JsVal.undef` for it. -/
structure ActionKind : Type where
  type : String
  call : JsVal → Message

/-- A Message Kind produced by `payloadAction` or `optionalPayloadAction`:
exposes its tag as `type` and is callable with a payload argument and an
(optional) metadata argument. -/
structure PayloadKind : Type where
  type : String
  call : JsVal → JsVal → Message

/-- `action(type)`: `Object.assign((meta?) => ({ type, meta }), readonly({type}))`.
The produced object literal `{ type, meta }` always has a `meta` property,
holding `undefined` when the argument was omitted; it has no `payload`
property. -/
def action (t : String) : ActionKind :=
  readonly
    { type := t
      call := fun meta => { type := t, payload := none, meta := some meta } }

/-- `payloadAction<P>()(type)`: the outer application fixes only the payload
type parameter (no runtime content, modelled by `Unit`); the inner returns
`Object.assign((payload, meta?) => ({ type, payload, meta }), readonly({type}))`.
The object literal always has `payload` and `meta` properties (with `meta`
holding `undefined` when omitted). -/
def payloadAction : Unit → String → PayloadKind :=
  fun _ t =>
    { type := t
      call := fun payload meta =>
        { type := t, payload := some payload, meta := some meta } }

/-- `optionalPayloadAction<P>()(type)`: like `payloadAction` but the payload
argument is optional, and the body branches on `payload === undefined` and
`meta === undefined` so that an undefined trailing argument yields an object
literal from which that property is absent entirely. -/
def optionalPayloadAction : Unit → String → PayloadKind :=
  fun _ t =>
    { type := t
      call := fun payload meta =>
        if payload = JsVal.undef ∧ meta = JsVal.undef then
          { type := t, payload := none, meta := none }
        else if payload = JsVal.undef then
          { type := t, payload := none, meta := some meta }
        else if meta = JsVal.undef then
          { type := t, payload := some payload, meta := none }
        else
          { type := t, payload := some payload, meta := some meta } }

/-- `createReducer(initialState, cases)` from `reducer.utils.ts`.  The
`state` parameter has default value `initialState` (an omitted or undefined
argument is modelled by `none`).  The body indexes `cases` by
`action.type`; a found case is invoked with `(state, action)`, otherwise
`initialState` is returned. -/
def createReducer {State : Type} (initialState : State)
    (cases : List (String × (State → Message → State))) :
    Option State → Message → State :=
  fun state a =>
    let st := state.getD initialState
    match List.lookup a.type cases with
    | some reducerCase => reducerCase st a
    | none => initialState

/-- The tags of a registry's tag-union that the handler table is missing. -/
def missingTags (tagUnion keys : List String) : List String :=
  tagUnion.filter (fun t => !(keys.contains t))

/-- The handler-table keys that are not in the registry's tag-union. -/
def extraTags (tagUnion keys : List String) : List String :=
  keys.filter (fun k => !(tagUnion.contains k))

/-- The keys of a handler table. -/
def caseKeys {State : Type} (cases : List (String × (State → Message → State))) :
    List String :=
  cases.map Prod.fst

/-- Construction of a dispatch table, including the static check TypeScript
performs on the `cases` argument of `createReducer` against the mapped type
`ObjectReducer<State, Actions>`: the object literal must have exactly the
keys of `ActionTypesUnion<Actions>` (a missing key is a missing-property
error, an extra key is an excess-property error, and the diagnostics name
the offending tags).  Modelled as an explicit construction-time check that
fails with the missing and extra tags. -/
def createReducerChecked {State : Type} (tagUnion : List String)
    (initialState : State)
    (cases : List (String × (State → Message → State))) :
    Except (List String × List String) (Option State → Message → State) :=
  if missingTags tagUnion (caseKeys cases) = [] ∧
      extraTags tagUnion (caseKeys cases) = [] then
    Except.ok (createReducer initialState cases)
  else
    Except.error (missingTags tagUnion (caseKeys cases),
                  extraTags tagUnion (caseKeys cases))

/-- A property of a TypeScript object type: whether it is `readonly` and
whether it is optional. -/
structure TsField : Type where
  ro : Bool
  opt : Bool
deriving DecidableEq, Repr

/-- A TypeScript object type, as a list of named properties. -/
abbrev TsObjType : Type := List (String × TsField)

/-- The builtin `Readonly<T>` mapped type: every property of `T`, marked
`readonly`. -/
def readonlyTy (t : TsObjType) : TsObjType :=
  t.map (fun f => (f.1, { f.2 with ro := true }))

/-- TypeScript's static rule for a property assignment `o.name = v` on an
object of type `t`: it typechecks only if the property exists in the type
and is not `readonly`.  Assigning to a property absent from the type (i.e.
adding a kind) is also rejected. -/
def assignAllowed (t : TsObjType) (name : String) : Bool :=
  match List.lookup name t with
  | some f => !f.ro
  | none => false

/-- TypeScript's static rule for `delete o.name` on an object of type `t`:
it typechecks only if the property is optional and not `readonly`. -/
def deleteAllowed (t : TsObjType) (name : String) : Bool :=
  match List.lookup name t with
  | some f => f.opt && !f.ro
  | none => false

/-- The counter registry from `counter.actions.ts`:
`readonly({ increment: payloadAction<number>()('[counter] Increment'),
decrement: optionalPayloadAction<number>()('[counter] Decrement'),
reset: action('[counter] Reset') })`. -/
structure CounterRegistry : Type where
  increment : PayloadKind
  decrement : PayloadKind
  reset : ActionKind

/-- The `counterActions` registry value. -/
def counterActions : CounterRegistry :=
  readonly
    { increment := payloadAction () "[counter] Increment"
      decrement := optionalPayloadAction () "[counter] Decrement"
      reset := action "[counter] Reset" }

/-- The static type of `counterActions`: `Readonly` of the object literal's
type, whose three properties are non-`readonly` and non-optional. -/
def counterActionsObjTy : TsObjType :=
  readonlyTy
    [("increment", { ro := false, opt := false }),
     ("decrement", { ro := false, opt := false }),
     ("reset", { ro := false, opt := false })]

/-- `CounterState = number`; the configured initial state is `0`. -/
def counterInitialState : JsVal := JsVal.num 0

/-- The increment case of `counter.reducer.ts`:
`(state, action) => state + action.payload`. -/
def incrementCase : JsVal → Message → JsVal :=
  fun state a => jsAdd state (payloadOf a)

/-- The decrement case of `counter.reducer.ts`:
`(state, action) => state - (action.payload ? action.payload : 1)`. -/
def decrementCase : JsVal → Message → JsVal :=
  fun state a =>
    jsSub state (if truthy (payloadOf a) then payloadOf a else JsVal.num 1)

/-- The reset case of `counter.reducer.ts`: `() => initialState`. -/
def resetCase : JsVal → Message → JsVal :=
  fun _ _ => counterInitialState

/-- The handler table passed to `createReducer` in `counter.reducer.ts`,
keyed by the registry kinds' tags. -/
def counterCases : List (String × (JsVal → Message → JsVal)) :=
  [(counterActions.increment.type, incrementCase),
   (counterActions.decrement.type, decrementCase),
   (counterActions.reset.type, resetCase)]

/-- The tag-union of the counter registry (`ActionTypesUnion`). -/
def counterTagUnion : List String :=
  [counterActions.increment.type,
   counterActions.decrement.type,
   counterActions.reset.type]

/-- The counter reducer: `createReducer(initialState, {...})`. -/
def counterReducer : Option JsVal → Message → JsVal :=
  createReducer counterInitialState counterCases

/- ## Helper lemmas -/

/-- A filtered list is empty iff no element of the list satisfies the
(boolean) predicate. -/
theorem filter_nil_iff_all_not {α : Type _} (p : α → Bool) (l : List α) :
    l.filter p = [] ↔ ∀ a ∈ l, p a = false := by
  induction l with
  | nil => simp
  | cons hd tl ih =>
      cases h : p hd with
      | false => simp [List.filter, h, ih]
      | true => simp [List.filter, h]

/-- `missingTags` is empty iff every tag of the union is a key. -/
theorem missingTags_eq_nil_iff (tagUnion keys : List String) :
    missingTags tagUnion keys = [] ↔ ∀ t ∈ tagUnion, t ∈ keys := by
  rw [missingTags, filter_nil_iff_all_not]
  constructor
  · intro h t ht
    have := h t ht
    simpa [List.elem_iff] using this
  · intro h t ht
    simp [List.elem_iff, h t ht]

/-- `extraTags` is empty iff every key is a tag of the union. -/
theorem extraTags_eq_nil_iff (tagUnion keys : List String) :
    extraTags tagUnion keys = [] ↔ ∀ k ∈ keys, k ∈ tagUnion := by
  rw [extraTags, filter_nil_iff_all_not]
  constructor
  · intro h k hk
    have := h k hk
    simpa [List.elem_iff] using this
  · intro h k hk
    simp [List.elem_iff, h k hk]

/-- Looking a property up in `Readonly<T>` finds the property of `T`,
marked `readonly`. -/
theorem lookup_readonlyTy (t : TsObjType) (name : String) :
    List.lookup name (readonlyTy t) =
      (List.lookup name t).map (fun f => { f with ro := true }) := by
  induction t with
  | nil => rfl
  | cons hd tl ih =>
      obtain ⟨k, f⟩ := hd
      by_cases h : name = k
      · simp [readonlyTy, List.lookup, h]
      · have hb : (name == k) = false := by
          simpa [beq_iff_eq] using h
        simpa [readonlyTy, List.lookup, hb] using ih

/-- No property assignment typechecks on a `Readonly<T>` object type. -/
theorem assignAllowed_readonlyTy (t : TsObjType) (name : String) :
    assignAllowed (readonlyTy t) name = false := by
  rw [assignAllowed, lookup_readonlyTy]
  cases List.lookup name t <;> rfl

/-- No property deletion typechecks on a `Readonly<T>` object type. -/
theorem deleteAllowed_readonlyTy (t : TsObjType) (name : String) :
    deleteAllowed (readonlyTy t) name = false := by
  rw [deleteAllowed, lookup_readonlyTy]
  cases List.lookup name t <;> simp

/- ## Claims -/

/-- C1: constructing a dispatch table via `createReducer` (with TypeScript's
static check of the handler table against `ObjectReducer`, embedded in
`createReducerChecked`) succeeds iff the table's key set is set-equal to the
registry's tag-union; otherwise construction fails reporting exactly the
missing and the extra tags, at least one of those lists being nonempty. -/
theorem createReducerChecked_ok_iff_keys_match {State : Type}
    (tagUnion : List String) (init : State)
    (cases : List (String × (State → Message → State))) :
    ((∃ r, createReducerChecked tagUnion init cases = Except.ok r) ↔
      ((∀ t ∈ tagUnion, t ∈ caseKeys cases) ∧
       (∀ k ∈ caseKeys cases, k ∈ tagUnion)))
    ∧ (∀ e, createReducerChecked tagUnion init cases = Except.error e →
        e = (missingTags tagUnion (caseKeys cases),
             extraTags tagUnion (caseKeys cases))
        ∧ (e.1 ≠ [] ∨ e.2 ≠ [])) := by
  constructor
  · rw [← missingTags_eq_nil_iff tagUnion (caseKeys cases),
        ← extraTags_eq_nil_iff tagUnion (caseKeys cases)]
    constructor
    · rintro ⟨r, hr⟩
      rw [createReducerChecked] at hr
      split at hr
      · assumption
      · exact absurd hr (by simp)
    · intro h
      refine ⟨createReducer init cases, ?_⟩
      rw [createReducerChecked, if_pos h]
  · intro e he
    rw [createReducerChecked] at he
    split at he
    · exact absurd he (by simp)
    · rename_i hne
      have he' := Except.error.inj he
      refine ⟨he'.symm, ?_⟩
      rw [← he']
      by_contra hc
      push_neg at hc
      exact hne ⟨hc.1, hc.2⟩

/-- C1 witness: the counter handler table passes the check against the
counter tag-union, and a table missing tag `"A"` and carrying extra key
`"C"` against tag-union `["A", "B"]` fails construction reporting exactly
those tags. -/
theorem createReducerChecked_witness :
    (∃ r, createReducerChecked counterTagUnion counterInitialState counterCases
            = Except.ok r)
    ∧ createReducerChecked ["A", "B"] counterInitialState
        [("B", resetCase), ("C", resetCase)] = Except.error (["A"], ["C"])
    ∧ ((["A"] : List String) ≠ [] ∨ (["C"] : List String) ≠ []) := by
  refine ⟨?_, rfl, ?_⟩
  · exact (createReducerChecked_ok_iff_keys_match counterTagUnion
      counterInitialState counterCases).1.mpr (by decide)
  · exact ((createReducerChecked_ok_iff_keys_match ["A", "B"]
      counterInitialState [("B", resetCase), ("C", resetCase)]).2
      (["A"], ["C"]) rfl).2

/-- C2: a reducer produced by `createReducer`, applied to any state `s` and
a message whose tag is not a key of the handler table, returns the
`initialState` supplied at construction (not the state argument). -/
theorem createReducer_unknown_tag_returns_initial {State : Type}
    (init : State) (cases : List (String × (State → Message → State)))
    (s : State) (a : Message)
    (h : List.lookup a.type cases = none) :
    createReducer init cases (some s) a = init := by
  simp [createReducer, h]

/-- C2 witness: dispatching a message with tag `"UNKNOWN"` from state `7`
on the counter reducer returns the configured initial state `0`. -/
theorem createReducer_unknown_tag_witness :
    List.lookup "UNKNOWN" counterCases = none
    ∧ counterReducer (some (JsVal.num 7))
        { type := "UNKNOWN", payload := none, meta := none } = JsVal.num 0 :=
  ⟨rfl,
   createReducer_unknown_tag_returns_initial counterInitialState counterCases
     (JsVal.num 7) { type := "UNKNOWN", payload := none, meta := none } rfl⟩

/-- C3: a reducer produced by `createReducer`, applied to a state `s` and a
message whose tag is a key of the handler table, invokes exactly the handler
registered under that tag with `(s, a)` and returns its result. -/
theorem createReducer_routes_to_handler {State : Type}
    (init : State) (cases : List (String × (State → Message → State)))
    (s : State) (a : Message) (f : State → Message → State)
    (h : List.lookup a.type cases = some f) :
    createReducer init cases (some s) a = f s a := by
  simp [createReducer, h]

/-- C3 witness: an increment message routes to the increment handler and
returns its result. -/
theorem createReducer_routes_witness :
    List.lookup (counterActions.increment.call (JsVal.num 5) JsVal.undef).type
      counterCases = some incrementCase
    ∧ counterReducer (some (JsVal.num 0))
        (counterActions.increment.call (JsVal.num 5) JsVal.undef)
      = incrementCase (JsVal.num 0)
          (counterActions.increment.call (JsVal.num 5) JsVal.undef) :=
  ⟨rfl,
   createReducer_routes_to_handler counterInitialState counterCases
     (JsVal.num 0) (counterActions.increment.call (JsVal.num 5) JsVal.undef)
     incrementCase rfl⟩

/-- C4 counterexample: the claim fails for no-payload kinds — invoking
`action('[counter] Reset')` with its metadata argument unset produces a
message in which the `meta` property is present, holding `undefined`,
rather than being omitted from the message entirely. -/
theorem action_meta_field_not_omitted :
    (counterActions.reset.call JsVal.undef).meta = some JsVal.undef
    ∧ some JsVal.undef ≠ (none : Option JsVal) := by
  exact ⟨rfl, by simp⟩

/-- C4 amended: the tag field is always present.  For optional-payload
kinds, each of the four payload/metadata presence combinations yields a
message containing exactly the present fields and no others (a field is
present iff the argument was supplied, i.e. not `undefined`).  For
no-payload kinds the `payload` field is absent but the `meta` field is
always present — holding `undefined` when the argument was unset, rather
than being omitted; for required-payload kinds both the `payload` and the
`meta` field are always present, `meta` likewise holding `undefined` when
unset. -/
theorem message_field_presence (t : String) (p m : JsVal) :
    ((action t).call m).type = t
    ∧ ((action t).call m).payload = none
    ∧ ((action t).call m).meta = some m
    ∧ ((payloadAction () t).call p m).type = t
    ∧ ((payloadAction () t).call p m).payload = some p
    ∧ ((payloadAction () t).call p m).meta = some m
    ∧ ((optionalPayloadAction () t).call p m).type = t
    ∧ ((optionalPayloadAction () t).call p m).payload
        = (if p = JsVal.undef then none else some p)
    ∧ ((optionalPayloadAction () t).call p m).meta
        = (if m = JsVal.undef then none else some m) := by
  refine ⟨rfl, rfl, rfl, rfl, rfl, rfl, ?_, ?_, ?_⟩ <;>
    by_cases hp : p = JsVal.undef <;>
    by_cases hm : m = JsVal.undef <;>
    simp [optionalPayloadAction, hp, hm]

/-- C5: each factory declares a kind whose readable `type` property equals
the literal passed at declaration, and every message the kind produces has
its `type` field equal to that same literal. -/
theorem kind_tag_matches_declaration (t : String) (p m : JsVal) :
    (action t).type = t
    ∧ ((action t).call m).type = t
    ∧ (payloadAction () t).type = t
    ∧ ((payloadAction () t).call p m).type = t
    ∧ (optionalPayloadAction () t).type = t
    ∧ ((optionalPayloadAction () t).call p m).type = t := by
  refine ⟨rfl, rfl, rfl, rfl, rfl, ?_⟩
  by_cases hp : p = JsVal.undef <;>
    by_cases hm : m = JsVal.undef <;>
    simp [optionalPayloadAction, hp, hm]

/-- C6: the counter scenario.  From state `0`, `increment(5)` yields `5`;
from state `5`, `decrement()` with no payload yields `4`; from state `4`,
`decrement(4)` yields `0`; `reset()` yields the configured initial state
`0` from any state; and a message with an unregistered tag yields the
configured initial state `0` from any state — in particular not the
pre-dispatch state `7`. -/
theorem counter_scenario :
    counterReducer (some (JsVal.num 0))
        (counterActions.increment.call (JsVal.num 5) JsVal.undef) = JsVal.num 5
    ∧ counterReducer (some (JsVal.num 5))
        (counterActions.decrement.call JsVal.undef JsVal.undef) = JsVal.num 4
    ∧ counterReducer (some (JsVal.num 4))
        (counterActions.decrement.call (JsVal.num 4) JsVal.undef) = JsVal.num 0
    ∧ (∀ s : JsVal, counterReducer (some s)
        (counterActions.reset.call JsVal.undef) = JsVal.num 0)
    ∧ (∀ s : JsVal, counterReducer (some s)
        { type := "UNKNOWN", payload := none, meta := none } = JsVal.num 0)
    ∧ counterReducer (some (JsVal.num 7))
        { type := "UNKNOWN", payload := none, meta := none } ≠ JsVal.num 7 := by
  refine ⟨rfl, rfl, rfl, fun s => rfl, fun s => rfl, by decide⟩

/-- C7: the registry's static type is `Readonly<T>`, under which no
property assignment or deletion typechecks: in well-typed client code no
Message Kind can be added (assignment to an absent property), removed
(deletion), or replaced (assignment to an existing property) after
construction — in particular on the counter registry's type. -/
theorem registry_readonly_after_construction (t : TsObjType) (name : String) :
    assignAllowed (readonlyTy t) name = false
    ∧ deleteAllowed (readonlyTy t) name = false
    ∧ assignAllowed counterActionsObjTy name = false
    ∧ deleteAllowed counterActionsObjTy name = false :=
  ⟨assignAllowed_readonlyTy t name,
   deleteAllowed_readonlyTy t name,
   assignAllowed_readonlyTy _ name,
   deleteAllowed_readonlyTy _ name⟩

/-- C8: message construction is a pure function of the kind's declared tag
and the invocation arguments — invoking the same kind twice with the same
arguments yields structurally equal messages, for all three factories. -/
theorem kind_invocation_deterministic (t : String) (p m p₂ m₂ : JsVal)
    (hp : p = p₂) (hm : m = m₂) :
    (action t).call m = (action t).call m₂
    ∧ (payloadAction () t).call p m = (payloadAction () t).call p₂ m₂
    ∧ (optionalPayloadAction () t).call p m
        = (optionalPayloadAction () t).call p₂ m₂ := by
  subst hp; subst hm; exact ⟨rfl, rfl, rfl⟩

/-- C8 witness: two invocations of each counter kind with the same concrete
arguments produce structurally equal messages. -/
theorem kind_invocation_deterministic_witness :
    (action "[counter] Reset").call JsVal.undef
        = (action "[counter] Reset").call JsVal.undef
    ∧ (payloadAction () "[counter] Reset").call (JsVal.num 5) JsVal.undef
        = (payloadAction () "[counter] Reset").call (JsVal.num 5) JsVal.undef
    ∧ (optionalPayloadAction () "[counter] Reset").call (JsVal.num 5) JsVal.undef
        = (optionalPayloadAction () "[counter] Reset").call (JsVal.num 5)
            JsVal.undef :=
  kind_invocation_deterministic "[counter] Reset" (JsVal.num 5) JsVal.undef
    (JsVal.num 5) JsVal.undef rfl rfl

/-- C9: dispatching a decrement message whose payload is the number `0`
returns `state - 1`, the same result as dispatching decrement with no
payload: the handler's default of `1` applies whenever the payload is falsy
(such as `0`), not only when the payload field is absent. -/
theorem decrement_zero_payload_defaults (s : Int) :
    counterReducer (some (JsVal.num s))
        (counterActions.decrement.call (JsVal.num 0) JsVal.undef)
      = JsVal.num (s - 1)
    ∧ counterReducer (some (JsVal.num s))
        (counterActions.decrement.call (JsVal.num 0) JsVal.undef)
      = counterReducer (some (JsVal.num s))
          (counterActions.decrement.call JsVal.undef JsVal.undef) :=
  ⟨rfl, rfl⟩

/-- C10: a reducer produced by `createReducer`, called with the state
argument omitted (or `undefined`), behaves exactly as if called with
`initialState`: for a message whose tag is a key of the handler table, the
registered handler receives `initialState` as its state argument and its
result is returned. -/
theorem createReducer_default_state {State : Type}
    (init : State) (cases : List (String × (State → Message → State)))
    (a : Message) (f : State → Message → State)
    (h : List.lookup a.type cases = some f) :
    createReducer init cases none a = createReducer init cases (some init) a
    ∧ createReducer init cases none a = f init a := by
  constructor
  · rfl
  · simp [createReducer, h]

/-- C10 witness: the counter reducer called with no state and a no-payload
decrement message hands the initial state `0` to the decrement handler,
returning `-1`. -/
theorem createReducer_default_state_witness :
    List.lookup (counterActions.decrement.call JsVal.undef JsVal.undef).type
        counterCases = some decrementCase
    ∧ counterReducer none (counterActions.decrement.call JsVal.undef JsVal.undef)
        = decrementCase counterInitialState
            (counterActions.decrement.call JsVal.undef JsVal.undef)
    ∧ counterReducer none (counterActions.decrement.call JsVal.undef JsVal.undef)
        = JsVal.num (-1) :=
  ⟨rfl,
   (createReducer_default_state counterInitialState counterCases
      (counterActions.decrement.call JsVal.undef JsVal.undef)
      decrementCase rfl).2,
   rfl⟩
